import Mathlib

/-!
Verification of the Basic TMS processor core pipeline.

This file embeds the normalization-and-rule pipeline of the repository
(`basic_processor.py` / `core_logic.py` / `basic_gui.py`) as executable Lean
definitions and proves or refutes the frozen specification claims about it.

Cells of the spreadsheet grid are modelled by `Cell` (a numeric value, a text
value, or a missing value `NaN`), canonical data rows by `Row`, and the
configuration surface by `Config`.  Python string operations used by the code
(`strip`, `upper`, `split('/')[-1]`, `replace`, substring test) are embedded as
explicit functions over the character list of a string so that every
definition evaluates inside the kernel.
-/

set_option autoImplicit false

namespace TMS

/-! ## Python string operations -/

/-- Whitespace recognised by `str.strip()` (ASCII subset). -/
def isSpaceChar (c : Char) : Bool :=
  c == ' ' || c == '\t' || c == '\n' || c == '\r'

/-- ASCII upper-casing of one character, as in Python `str.upper()`. -/
def upChar (c : Char) : Char :=
  if 'a' ≤ c && c ≤ 'z' then Char.ofNat (c.toNat - 32) else c

/-- Map a character function over a string. -/
def strMap (f : Char → Char) (s : String) : String :=
  ⟨s.data.map f⟩

/-- Python `s.upper()` (ASCII). -/
def upperStr (s : String) : String := strMap upChar s

/-- Python `s.replace('&', '%')`. -/
def ampToPct (s : String) : String :=
  strMap (fun c => if c == '&' then '%' else c) s

/-- Python `s.replace('%', '&')`. -/
def pctToAmp (s : String) : String :=
  strMap (fun c => if c == '%' then '&' else c) s

/-- Python `s.strip()`: drop leading and trailing whitespace. -/
def trimStr (s : String) : String :=
  ⟨((s.data.dropWhile isSpaceChar).reverse.dropWhile isSpaceChar).reverse⟩

/-- Python `s.split('/')[-1]`: the substring after the last `'/'` (the whole
string when no `'/'` occurs). -/
def afterLastSlash (s : String) : String :=
  ⟨(s.data.reverse.takeWhile (fun c => !(c == '/'))).reverse⟩

/-- Python `c in s` for a single character. -/
def containsChar (s : String) (c : Char) : Bool :=
  s.data.contains c

/-- Python `needle in haystack` on character lists. -/
def hasSubList (needle : List Char) : List Char → Bool
  | [] => needle.isEmpty
  | c :: t => needle.isPrefixOf (c :: t) || hasSubList needle t

/-- Python `needle in haystack` for strings. -/
def hasSub (needle haystack : String) : Bool :=
  hasSubList needle.data haystack.data

/-- Python `' '.join(strs)`. -/
def joinSp : List String → String
  | [] => ""
  | [s] => s
  | s :: t :: r => s ++ " " ++ joinSp (t :: r)

/-- ASCII digit test, as in `str.isdigit()` restricted to ASCII. -/
def isDigitChar (c : Char) : Bool := '0' ≤ c && c ≤ '9'

/-! ## Cells of the raw grid -/

/-- One spreadsheet cell as read by pandas: a numeric value, a text value, or
a missing value (`NaN`). -/
inductive Cell where
  | num (q : ℚ)
  | str (s : String)
  | empty
  deriving DecidableEq, Repr

/-- Python `pd.isna` on a cell. -/
def Cell.isNa : Cell → Bool
  | .empty => true
  | _ => false

/-- Decimal rendering of a rational, standing in for Python `str()` of a
numeric cell. Only its existence matters for the claims proved here. -/
def ratStr (q : ℚ) : String := toString q

/-- Python `str(cell)`: `NaN` renders as the literal string `"nan"`. -/
def cellStr : Cell → String
  | .num q => ratStr q
  | .str s => s
  | .empty => "nan"

/-- The text of a non-null cell; `none` for `NaN` (dropped by `dropna`). -/
def cellText : Cell → Option String
  | .num q => some (ratStr q)
  | .str s => some s
  | .empty => none

/-- Python `pd.to_numeric(cell, errors='coerce')`: numbers survive, text and
`NaN` coerce to null. -/
def toNum : Cell → Option ℚ
  | .num q => some q
  | _ => none

/-- Numeric coercion followed by `fillna(0)`. -/
def toNumF (c : Cell) : ℚ := (toNum c).getD 0

/-! ## Canonical rows and configuration -/

/-- One canonical data row, with the fields the rule engine touches:
carrier options for the selected and the least-cost alternative and the
potential-savings figure.  Cost and day fields are post-coercion rationals,
carrier and service fields post-coercion strings. -/
structure Row where
  loadId : String
  destinationCity : Option String
  selCarrier : String
  selService : String
  selTransit : ℚ
  selFreight : ℚ
  selAccessorial : ℚ
  selTotal : ℚ
  lcCarrier : String
  lcService : String
  lcTransit : ℚ
  lcFreight : ℚ
  lcAccessorial : ℚ
  lcTotal : ℚ
  ps : ℚ
  deriving DecidableEq, Repr

/-- Default row used with `List.getD`. -/
def defaultRow : Row :=
  { loadId := "", destinationCity := none,
    selCarrier := "", selService := "", selTransit := 0, selFreight := 0,
    selAccessorial := 0, selTotal := 0,
    lcCarrier := "", lcService := "", lcTransit := 0, lcFreight := 0,
    lcAccessorial := 0, lcTotal := 0, ps := 0 }

/-- Configuration surface consumed by the rule engine:
`business_rules.same_carrier_savings` and the TL carrier set. -/
structure Config where
  sameCarrierSavings : ℚ
  tlCarriers : List String
  deriving DecidableEq, Repr

/-- The default TL carrier set (`self.TL_CARRIERS`). -/
def defaultTLCarriers : List String :=
  ["LANDSTAR RANGER INC", "SMARTWAY TRANSPORTATION INC", "SMARTWAY CORPORATION INC"]

/-- The shipped configuration: `same_carrier_savings = 0.0` and the three
named TL carriers. -/
def defaultConfig : Config :=
  { sameCarrierSavings := 0, tlCarriers := defaultTLCarriers }

/-! ## The five business rules (`_apply_business_logic_enhanced`) -/

/-- Copy the six `Selected *` fields onto the `Least Cost *` fields
(`_copy_selected_to_least_cost` with the six column pairs). -/
def copySel (r : Row) : Row :=
  { r with lcCarrier := r.selCarrier, lcService := r.selService,
           lcTransit := r.selTransit, lcFreight := r.selFreight,
           lcAccessorial := r.selAccessorial, lcTotal := r.selTotal }

/-- The shared effect of rules 2-5: copy selected onto least-cost and zero
the potential savings. -/
def zeroCopy (r : Row) : Row := { copySel r with ps := 0 }

/-- Rule 1 match (`same_carrier_mask`): equal carriers, both non-empty and
neither the literal `"nan"`. -/
def mask1 (r : Row) : Bool :=
  r.selCarrier == r.lcCarrier && r.selCarrier != "" && r.lcCarrier != "" &&
  r.selCarrier != "nan" && r.lcCarrier != "nan"

/-- Rule 2 match (`empty_least_cost_mask`): least-cost carrier empty or the
stringified null `"nan"`. -/
def mask2 (r : Row) : Bool :=
  r.lcCarrier == "" || r.lcCarrier == "nan"

/-- Membership of an upper-cased carrier in the upper-cased TL set
(`df[col].str.upper().isin([c.upper() for c in TL_CARRIERS])`). -/
def upperMem (tl : List String) (s : String) : Bool :=
  (tl.map upperStr).contains (upperStr s)

/-- Rule 4 match (`tl_mask`): selected or least-cost carrier in the TL set,
case-insensitively. -/
def mask4 (tl : List String) (r : Row) : Bool :=
  upperMem tl r.selCarrier || upperMem tl r.lcCarrier

/-- Rule 5 match (the DDI/carrier-matching loop): both carriers non-trivial
after stripping, the selected carrier contains `'/'`, and the stripped part
after the last `'/'` equals the least-cost carrier case-insensitively, also
with `'&'` and `'%'` identified. -/
def mask5 (r : Row) : Bool :=
  let sel := trimStr r.selCarrier
  let lc := trimStr r.lcCarrier
  !(sel == "" || sel == "nan" || sel == "None") &&
  !(lc == "" || lc == "nan" || lc == "None") &&
  containsChar sel '/' &&
  (let a := trimStr (afterLastSlash sel)
   upperStr a == upperStr lc ||
   ampToPct (upperStr a) == ampToPct (upperStr lc) ||
   pctToAmp (upperStr a) == pctToAmp (upperStr lc))

/-- Rule 1 (Same Carriers): set potential savings to the configured
`same_carrier_savings` on matching rows. -/
def rule1 (c : ℚ) (r : Row) : Row :=
  if mask1 r then { r with ps := c } else r

/-- Rule 2 (Empty Least Cost): copy selected data and zero the savings. -/
def rule2 (r : Row) : Row :=
  if mask2 r then zeroCopy r else r

/-- Rule 3 (Negative Savings): copy selected data and zero the savings when
the potential savings are negative. -/
def rule3 (r : Row) : Row :=
  if r.ps < 0 then zeroCopy r else r

/-- Rule 4 (TL Carriers): copy selected data and zero the savings on TL
carrier rows. -/
def rule4 (tl : List String) (r : Row) : Row :=
  if mask4 tl r then zeroCopy r else r

/-- Rule 5 (DDI/Carrier Matching): copy selected data and zero the savings on
alias-slash matches. -/
def rule5 (r : Row) : Row :=
  if mask5 r then zeroCopy r else r

/-- The row-level effect of the full five-rule sequence, in source order. -/
def applyRow (cfg : Config) (r : Row) : Row :=
  rule5 (rule4 cfg.tlCarriers (rule3 (rule2 (rule1 cfg.sameCarrierSavings r))))

/-- Audit counters built by `_apply_business_logic_enhanced`
(`business_stats`). -/
structure RuleStats where
  sameCarrierRuleApplied : Nat
  emptyDataRuleApplied : Nat
  negativeSavingsRuleApplied : Nat
  tlCarrierRuleApplied : Nat
  ddiCarrierRuleApplied : Nat
  totalRowsAffected : Nat
  deriving DecidableEq, Repr

/-- The five-rule engine of `_apply_business_logic_enhanced`: each rule
computes its match mask over the current row set, records the match count,
and applies its effect to the matching rows; `total_rows_affected` is the sum
of the five counts. -/
def apply_business_logic_enhanced (cfg : Config) (rows : List Row) :
    List Row × RuleStats :=
  let c1 := (rows.filter mask1).length
  let rows1 := rows.map (rule1 cfg.sameCarrierSavings)
  let c2 := (rows1.filter mask2).length
  let rows2 := rows1.map rule2
  let c3 := (rows2.filter (fun r => decide (r.ps < 0))).length
  let rows3 := rows2.map rule3
  let c4 := (rows3.filter (mask4 cfg.tlCarriers)).length
  let rows4 := rows3.map (rule4 cfg.tlCarriers)
  let c5 := (rows4.filter mask5).length
  let rows5 := rows4.map rule5
  (rows5,
   { sameCarrierRuleApplied := c1, emptyDataRuleApplied := c2,
     negativeSavingsRuleApplied := c3, tlCarrierRuleApplied := c4,
     ddiCarrierRuleApplied := c5,
     totalRowsAffected := c1 + c2 + c3 + c4 + c5 })

/-- The corrected row set produced by the full rule sequence. -/
def applyRules (cfg : Config) (rows : List Row) : List Row :=
  (apply_business_logic_enhanced cfg rows).1

/-- Example row for the C1 witness: a negative-savings row (spec scenario 3). -/
def exRowNeg : Row :=
  { defaultRow with selCarrier := "AAA CARTAGE", selTotal := 300,
                    lcCarrier := "BBB FREIGHT", lcTotal := 375, ps := -75 }

/-- Example row for the C3 witness: empty least-cost carrier
(spec scenario 2). -/
def exRowEmptyLC : Row :=
  { defaultRow with selCarrier := "XYZ LOGISTICS", selTotal := 500, ps := 150 }

/-- Configuration with a positive same-carrier savings value, refuting
idempotence of the rule sequence as claimed for every configuration. -/
def cexConfigPos : Config :=
  { sameCarrierSavings := 5, tlCarriers := defaultTLCarriers }

/-- Example row for the C2 witness: same carrier on both options
(spec scenario 1). -/
def exRowSame : Row :=
  { defaultRow with selCarrier := "ABC TRUCKING", lcCarrier := "ABC TRUCKING",
                    ps := 150 }

/-- TL-carrier row with equal carriers: rule 1 writes the configured value
but rule 4 later zeroes it, refuting the same-carrier invariant as claimed
for every configuration. -/
def cexRowTL : Row :=
  { defaultRow with selCarrier := "LANDSTAR RANGER INC",
                    lcCarrier := "LANDSTAR RANGER INC", ps := 150 }

/-- Configuration with `same_carrier_savings = 7`. -/
def cexConfigSeven : Config :=
  { sameCarrierSavings := 7, tlCarriers := defaultTLCarriers }

/-- Row matched by two rules at once — empty least-cost carrier (rule 2)
and a TL selected carrier (rule 4) — so it contributes 2 to the
`total_rows_affected` statistic. -/
def exRowDouble : Row :=
  { defaultRow with selCarrier := "LANDSTAR RANGER INC", selTotal := 400,
                    ps := 100 }

/-! ## The potential-savings derivation (`_calculate_potential_savings`) -/

/-- The three columns `_calculate_potential_savings` reads and writes, for
one data row. -/
structure PreRow where
  selTotalCell : Cell
  lcTotalCell : Cell
  psCell : Cell
  deriving DecidableEq, Repr

/-- Input of the potential-savings derivation: presence flags for the three
columns involved, plus the rows. -/
structure PreDF where
  hasSelCostCol : Bool
  hasLcCostCol : Bool
  hasPSCol : Bool
  rows : List PreRow
  deriving DecidableEq, Repr

/-- Default row used with `List.getD` on `PreRow` lists. -/
def defaultPreRow : PreRow :=
  { selTotalCell := .empty, lcTotalCell := .empty, psCell := .empty }

/-- Embedding of `TMSProcessor._calculate_potential_savings` (identical in
`basic_gui.BasicTMSProcessor`): keep an existing Potential Savings column
whenever at least one of its cells parses to a non-null number; otherwise
derive it from the two total-cost columns when both exist (selected minus
least-cost, forced to 0 where the least cost is 0), and otherwise create an
all-zero column. -/
def calculate_potential_savings (d : PreDF) : PreDF :=
  if d.hasPSCol && d.rows.any (fun r => (toNum r.psCell).isSome) then d
  else if d.hasSelCostCol && d.hasLcCostCol then
    { d with hasPSCol := true,
             rows := d.rows.map (fun r =>
               { r with psCell := .num (if toNumF r.lcTotalCell = 0 then 0
                   else toNumF r.selTotalCell - toNumF r.lcTotalCell) }) }
  else
    { d with hasPSCol := true,
             rows := d.rows.map (fun r => { r with psCell := .num 0 }) }

/-- A frame whose Potential Savings column has one parseable value (kept
verbatim). -/
def exPreKeep : PreDF :=
  { hasSelCostCol := true, hasLcCostCol := true, hasPSCol := true,
    rows := [{ selTotalCell := .str "x", lcTotalCell := .empty,
               psCell := .num 100 },
             { selTotalCell := .num 10, lcTotalCell := .num 4,
               psCell := .str "bad" }] }

/-- A frame with no Potential Savings column and costs 1000 / 800
(spec scenario 6). -/
def exPreCompute : PreDF :=
  { hasSelCostCol := true, hasLcCostCol := true, hasPSCol := false,
    rows := [{ selTotalCell := .num 1000, lcTotalCell := .num 800,
               psCell := .empty }] }

/-! ## Header detection (`_detect_data_structure`) -/

/-- ASCII lower-casing of one character, as in Python `str.lower()`. -/
def downChar (c : Char) : Char :=
  if 'A' ≤ c && c ≤ 'Z' then Char.ofNat (c.toNat + 32) else c

/-- Python `s.lower()` (ASCII). -/
def lowerStr (s : String) : String := strMap downChar s

/-- The `header_indicators` marker tokens of `_detect_data_structure`. -/
def header_indicators : List String :=
  ["Load No.", "Carrier", "Service Type", "Ship Date"]

/-- Number of marker tokens occurring, case-insensitively, in the non-null
cells of a row joined by single spaces. -/
def countHeaderMatches (row : List Cell) : Nat :=
  (header_indicators.filter (fun ind =>
    hasSub (lowerStr ind) (lowerStr (joinSp (row.filterMap cellText))))).length

/-- A row is taken for the header row when at least two marker tokens occur
in it. -/
def rowLooksLikeHeader (row : List Cell) : Bool :=
  2 ≤ countHeaderMatches row

/-- `self.DEFAULT_HEADER_ROW` of `ModernTMSProcessor`. -/
def DEFAULT_HEADER_ROW : Nat := 7

/-- `self.DEFAULT_DATA_START_ROW` of `ModernTMSProcessor`. -/
def DEFAULT_DATA_START_ROW : Nat := 10

/-- The scan loop of `_detect_data_structure`: `fuel` rows remain to be
inspected starting at index `i`; return on the first header-looking row,
fall back to the defaults when the range is exhausted. -/
def detectAux (grid : List (List Cell)) : Nat → Nat → Nat × Nat
  | 0, _ => (DEFAULT_HEADER_ROW, DEFAULT_DATA_START_ROW)
  | fuel + 1, i =>
    if rowLooksLikeHeader (grid.getD i []) then (i, i + 2)
    else detectAux grid fuel (i + 1)

/-- Embedding of `ModernTMSProcessor._detect_data_structure`: scan the rows
with indices in `range(5, min(15, len(grid)))`. -/
def detect_data_structure (grid : List (List Cell)) : Nat × Nat :=
  detectAux grid (min 15 grid.length - 5) 5

/-! ## Duplicate header removal (`_remove_duplicate_headers`) -/

/-- The marker tokens of `_remove_duplicate_headers` (note: no
`"Ship Date"`, and the match is case-sensitive there). -/
def dup_header_indicators : List String :=
  ["Load No.", "Carrier", "Service Type"]

/-- A row contains duplicated header text: some marker token occurs in its
non-null cells joined by single spaces. -/
def rowContainsMarker (row : List Cell) : Bool :=
  dup_header_indicators.any (fun ind =>
    hasSub ind (joinSp (row.filterMap cellText)))

/-- The identifier test of the source: `str(val).startswith('A') and
str(val)[1:].isdigit()` — the capital letter A followed by one or more
digits. -/
def isIdentCell (s : String) : Bool :=
  match s.data with
  | c :: rest => c == 'A' && !rest.isEmpty && rest.all isDigitChar
  | [] => false

/-- Some non-null cell of the row passes the identifier test. -/
def rowHasIdentCell (row : List Cell) : Bool :=
  (row.filterMap cellText).any isIdentCell

/-- Embedding of `ModernTMSProcessor._remove_duplicate_headers`: drop every
row that contains a marker token and has no identifier-shaped cell. -/
def remove_duplicate_headers (rows : List (List Cell)) : List (List Cell) :=
  rows.filter (fun row => !(rowContainsMarker row && !rowHasIdentCell row))

/-- ASCII letter test. -/
def isLetterChar (c : Char) : Bool :=
  ('A' ≤ c && c ≤ 'Z') || ('a' ≤ c && c ≤ 'z')

/-- The identifier pattern as the specification words it: any letter
followed by one or more digits (to be compared with the source's
`isIdentCell`, which accepts only the letter A). -/
def specIdentCell (s : String) : Bool :=
  match s.data with
  | c :: rest => isLetterChar c && !rest.isEmpty && rest.all isDigitChar
  | [] => false

/-- A data row containing a marker token together with a letter-digits
identifier cell whose letter is not A. -/
def cexDupRow : List Cell := [Cell.str "Carrier", Cell.str "B123"]

/-! ## The cleaning step (`_clean_data`) and its failure policy -/

/-- A dataframe for the cleaning step: named columns over row-major cells,
aligned with `cols` by position. -/
structure DF where
  cols : List String
  rows : List (List Cell)
  deriving DecidableEq, Repr

/-- Python `name in df.columns`. -/
def hasCol (d : DF) (c : String) : Bool := d.cols.contains c

/-- Position of a column name in the schema. -/
def colIdx (d : DF) (c : String) : Nat := d.cols.indexOf c

/-- The cell of a row at a column position (`NaN` when out of range). -/
def getCell (row : List Cell) (i : Nat) : Cell := row.getD i Cell.empty

/-- The error taxonomy of the specification, as an explicit error channel so
that raising is representable in the embedding. -/
inductive ProcError where
  | validationError (msg : String)
  | formatError (msg : String)
  deriving DecidableEq, Repr

/-- The `numeric_columns` list of `_clean_data`. -/
def numericColumnNames : List String :=
  ["Selected Transit Days", "Selected Freight Cost",
   "Selected Accessorial Cost", "Selected Total Cost",
   "Least Cost Transit Days", "Least Cost Freight Cost",
   "Least Cost Accessorial Cost", "Least Cost Total Cost",
   "Potential Savings"]

/-- The `string_columns` list of `_clean_data`. -/
def stringColumnNames : List String :=
  ["Selected Carrier", "Selected Service Type",
   "Least Cost Carrier", "Least Cost Service Type"]

/-- Rewrite one column of every row in place. -/
def mapColumn (d : DF) (c : String) (f : Cell → Cell) : DF :=
  { d with rows := d.rows.map (fun r =>
      r.set (colIdx d c) (f (getCell r (colIdx d c)))) }

/-- `pd.to_numeric(col, errors='coerce').fillna(0)` on one cell. -/
def coerceNumCell (c : Cell) : Cell := .num (toNumF c)

/-- `col.astype(str).str.strip()` followed by `.replace('nan', '')` on one
cell. -/
def cleanStrCell (c : Cell) : Cell :=
  let s := trimStr (cellStr c)
  if s == "nan" then .str "" else .str s

/-- The load-id row filter of `_clean_data`: applied only when the
`Load No.` column is present; otherwise the dataframe passes through
unchanged. -/
def loadFilter (d : DF) : DF :=
  if hasCol d "Load No." then
    let i := colIdx d "Load No."
    let r1 := d.rows.filter (fun r => !(getCell r i).isNa)
    let r2 := r1.filter (fun r => trimStr (cellStr (getCell r i)) != "")
    let r3 := r2.filter (fun r => cellStr (getCell r i) != "nan")
    { d with rows := r3 }
  else d

/-- Numeric coercion over every present numeric column. -/
def cleanNumericCols (d : DF) : DF :=
  numericColumnNames.foldl (fun acc c =>
    if hasCol acc c then mapColumn acc c coerceNumCell else acc) d

/-- String normalisation over every present string column. -/
def cleanStrCols (d : DF) : DF :=
  stringColumnNames.foldl (fun acc c =>
    if hasCol acc c then mapColumn acc c cleanStrCell else acc) d

/-- Count of non-null cells of a row, for `dropna(thresh=5)`. -/
def countNonNull (r : List Cell) : Nat :=
  (r.filter (fun c => !c.isNa)).length

/-- `df.dropna(thresh=5)`. -/
def threshFilter (d : DF) : DF :=
  { d with rows := d.rows.filter (fun r => 5 ≤ countNonNull r) }

/-- Embedding of `TMSProcessor._clean_data`, with an explicit error channel:
the claim under scrutiny asserts a ValidationError is raised when the
load-id column is absent, so the result type makes raising representable;
the source function branches on column presence and never takes an error
path. -/
def clean_data (d : DF) : Except ProcError DF :=
  Except.ok (threshFilter (cleanStrCols (cleanNumericCols (loadFilter d))))

/-- Whether an `Except` result is a success. -/
def isOkE {ε α : Type} : Except ε α → Bool
  | .ok _ => true
  | .error _ => false

/-- A dataframe whose `Load No.` column is entirely absent. -/
def dfNoLoad : DF :=
  { cols := ["Carrier"], rows := [[Cell.str "X CARRIER"], [Cell.str "Y"]] }

/-- Another dataframe without a `Load No.` column, for the witness. -/
def dfNoLoadW : DF :=
  { cols := ["Selected Carrier"], rows := [[Cell.str " ABC "]] }

theorem applyRules_eq_map (cfg : Config) (rows : List Row) :
    applyRules cfg rows = rows.map (applyRow cfg) := by
  simp [applyRules, apply_business_logic_enhanced, applyRow, List.map_map,
    Function.comp]

/-! ## Fixpoint structure of the rule engine -/

/-- A row on which the copy-and-zero effect is a no-op: the least-cost fields
already mirror the selected fields and the savings are zero.  Every firing of
rules 2-5 produces such a row. -/
def fixedRow (r : Row) : Prop := copySel r = r ∧ r.ps = 0

theorem copySel_copySel (r : Row) : copySel (copySel r) = copySel r := rfl

theorem copySel_ps (r : Row) (x : ℚ) :
    copySel { r with ps := x } = { copySel r with ps := x } := rfl

theorem ps_update_self (r : Row) : { r with ps := r.ps } = r := rfl

theorem fixedRow_zeroCopy (r : Row) : fixedRow (zeroCopy r) := ⟨rfl, rfl⟩

theorem zeroCopy_of_fixed {r : Row} (h : fixedRow r) : zeroCopy r = r := by
  have h2 := h.2
  calc zeroCopy r = { r with ps := 0 } := by rw [zeroCopy, h.1]
    _ = { r with ps := r.ps } := by rw [h2]
    _ = r := ps_update_self r

theorem zeroCopy_ps_update (r : Row) (x : ℚ) :
    zeroCopy { r with ps := x } = zeroCopy r := rfl

theorem rule2_of_fixed {r : Row} (h : fixedRow r) : rule2 r = r := by
  unfold rule2; split
  · exact zeroCopy_of_fixed h
  · rfl

theorem rule3_of_fixed {r : Row} (h : fixedRow r) : rule3 r = r := by
  unfold rule3; split
  · next hlt => rw [h.2] at hlt; exact absurd hlt (lt_irrefl 0)
  · rfl

theorem rule4_of_fixed {tl : List String} {r : Row} (h : fixedRow r) :
    rule4 tl r = r := by
  unfold rule4; split
  · exact zeroCopy_of_fixed h
  · rfl

theorem rule5_of_fixed {r : Row} (h : fixedRow r) : rule5 r = r := by
  unfold rule5; split
  · exact zeroCopy_of_fixed h
  · rfl

/-- Outcome of one pass over a row: either some copy-and-zero rule fired and
the result is a fixed row, or no rule past rule 1 fired and the result is
exactly the rule-1 image, on which every later match condition is false. -/
theorem applyRow_spec (cfg : Config) (r : Row) :
    fixedRow (applyRow cfg r) ∨
      (applyRow cfg r = rule1 cfg.sameCarrierSavings r ∧
       mask2 (applyRow cfg r) = false ∧
       ¬ (applyRow cfg r).ps < 0 ∧
       mask4 cfg.tlCarriers (applyRow cfg r) = false ∧
       mask5 (applyRow cfg r) = false) := by
  unfold applyRow
  set r1 := rule1 cfg.sameCarrierSavings r with hr1
  by_cases h2 : mask2 r1 = true
  · left
    have e2 : rule2 r1 = zeroCopy r1 := by simp [rule2, h2]
    have hf := fixedRow_zeroCopy r1
    rw [e2, rule3_of_fixed hf, rule4_of_fixed hf, rule5_of_fixed hf]
    exact hf
  · have e2 : rule2 r1 = r1 := by simp [rule2, h2]
    rw [e2]
    by_cases h3 : r1.ps < 0
    · left
      have e3 : rule3 r1 = zeroCopy r1 := by simp [rule3, h3]
      have hf := fixedRow_zeroCopy r1
      rw [e3, rule4_of_fixed hf, rule5_of_fixed hf]
      exact hf
    · have e3 : rule3 r1 = r1 := by simp [rule3, h3]
      rw [e3]
      by_cases h4 : mask4 cfg.tlCarriers r1 = true
      · left
        have e4 : rule4 cfg.tlCarriers r1 = zeroCopy r1 := by simp [rule4, h4]
        have hf := fixedRow_zeroCopy r1
        rw [e4, rule5_of_fixed hf]
        exact hf
      · have e4 : rule4 cfg.tlCarriers r1 = r1 := by simp [rule4, h4]
        rw [e4]
        by_cases h5 : mask5 r1 = true
        · left
          have e5 : rule5 r1 = zeroCopy r1 := by simp [rule5, h5]
          rw [e5]
          exact fixedRow_zeroCopy r1
        · have e5 : rule5 r1 = r1 := by simp [rule5, h5]
          rw [e5]
          rw [Bool.not_eq_true] at h2 h4 h5
          exact Or.inr ⟨rfl, h2, h3, h4, h5⟩

theorem applyRow_ps_nonneg (cfg : Config) (r : Row) :
    0 ≤ (applyRow cfg r).ps := by
  rcases applyRow_spec cfg r with h | h
  · rw [h.2]
  · exact le_of_not_lt h.2.2.1

/-- Variant of `List.getD` through `List.map`, used to speak about the row at
a fixed position of the processed row set. -/
theorem getD_map {α β : Type} (f : α → β) (d : β) (d' : α) :
    ∀ (l : List α) (i : Nat), i < l.length →
      (l.map f).getD i d = f (l.getD i d')
  | _ :: _, 0, _ => rfl
  | _ :: l, i + 1, h => getD_map f d d' l i (by simpa using h)

/-! ## Claim C1: non-negativity of potential savings post-rules -/

/-- C1: for every row set and configuration, after the full five-rule
sequence every row's potential savings are greater than or equal to 0. -/
theorem claim_C1_nonneg (cfg : Config) (rows : List Row) (r : Row)
    (h : r ∈ applyRules cfg rows) : 0 ≤ r.ps := by
  rw [applyRules_eq_map] at h
  obtain ⟨x, _, rfl⟩ := List.mem_map.mp h
  exact applyRow_ps_nonneg cfg x

/-- Witness for C1 at a concrete negative-savings row. -/
theorem claim_C1_nonneg_witness :
    0 ≤ (applyRow defaultConfig exRowNeg).ps :=
  claim_C1_nonneg defaultConfig [exRowNeg] (applyRow defaultConfig exRowNeg)
    (by decide)

/-! ## Claim C3: empty least-cost closure -/

theorem mask2_of_lc {r : Row} (h : r.lcCarrier = "" ∨ r.lcCarrier = "nan") :
    mask2 r = true := by
  rcases h with h' | h' <;> simp [mask2, h']

theorem mask1_eq_false_of_mask2 {r : Row} (h : mask2 r = true) :
    mask1 r = false := by
  have h' : r.lcCarrier = "" ∨ r.lcCarrier = "nan" := by
    simpa [mask2, beq_iff_eq] using h
  rcases h' with h' | h' <;> simp [mask1, h']

/-- A row matched by the empty-least-cost condition passes through rule 1
untouched and is sent to its copy-and-zero image by rule 2; rules 3-5 leave
that image unchanged. -/
theorem applyRow_of_mask2 (cfg : Config) (r : Row) (h : mask2 r = true) :
    applyRow cfg r = zeroCopy r := by
  unfold applyRow
  have e1 : rule1 cfg.sameCarrierSavings r = r := by
    simp [rule1, mask1_eq_false_of_mask2 h]
  have e2 : rule2 r = zeroCopy r := by simp [rule2, h]
  have hf := fixedRow_zeroCopy r
  rw [e1, e2, rule3_of_fixed hf, rule4_of_fixed hf, rule5_of_fixed hf]

/-- C3: for every row whose least-cost carrier is empty or null before the
rules run, after the full rule sequence that row satisfies least-cost equal to
selected on all six carrier-option fields and potential savings equal to 0. -/
theorem claim_C3_empty_least_cost (cfg : Config) (rows : List Row) (i : Nat)
    (hi : i < rows.length)
    (h : (rows.getD i defaultRow).lcCarrier = "" ∨
         (rows.getD i defaultRow).lcCarrier = "nan") :
    ((applyRules cfg rows).getD i defaultRow).lcCarrier =
        ((applyRules cfg rows).getD i defaultRow).selCarrier ∧
    ((applyRules cfg rows).getD i defaultRow).lcService =
        ((applyRules cfg rows).getD i defaultRow).selService ∧
    ((applyRules cfg rows).getD i defaultRow).lcTransit =
        ((applyRules cfg rows).getD i defaultRow).selTransit ∧
    ((applyRules cfg rows).getD i defaultRow).lcFreight =
        ((applyRules cfg rows).getD i defaultRow).selFreight ∧
    ((applyRules cfg rows).getD i defaultRow).lcAccessorial =
        ((applyRules cfg rows).getD i defaultRow).selAccessorial ∧
    ((applyRules cfg rows).getD i defaultRow).lcTotal =
        ((applyRules cfg rows).getD i defaultRow).selTotal ∧
    ((applyRules cfg rows).getD i defaultRow).ps = 0 := by
  rw [applyRules_eq_map, getD_map (applyRow cfg) defaultRow defaultRow rows i hi,
    applyRow_of_mask2 cfg _ (mask2_of_lc h)]
  exact ⟨rfl, rfl, rfl, rfl, rfl, rfl, rfl⟩

/-- Witness for C3 at a concrete empty-least-cost row. -/
theorem claim_C3_empty_least_cost_witness :
    ((applyRules defaultConfig [exRowEmptyLC]).getD 0 defaultRow).lcCarrier =
        ((applyRules defaultConfig [exRowEmptyLC]).getD 0 defaultRow).selCarrier ∧
    ((applyRules defaultConfig [exRowEmptyLC]).getD 0 defaultRow).lcService =
        ((applyRules defaultConfig [exRowEmptyLC]).getD 0 defaultRow).selService ∧
    ((applyRules defaultConfig [exRowEmptyLC]).getD 0 defaultRow).lcTransit =
        ((applyRules defaultConfig [exRowEmptyLC]).getD 0 defaultRow).selTransit ∧
    ((applyRules defaultConfig [exRowEmptyLC]).getD 0 defaultRow).lcFreight =
        ((applyRules defaultConfig [exRowEmptyLC]).getD 0 defaultRow).selFreight ∧
    ((applyRules defaultConfig [exRowEmptyLC]).getD 0 defaultRow).lcAccessorial =
        ((applyRules defaultConfig [exRowEmptyLC]).getD 0 defaultRow).selAccessorial ∧
    ((applyRules defaultConfig [exRowEmptyLC]).getD 0 defaultRow).lcTotal =
        ((applyRules defaultConfig [exRowEmptyLC]).getD 0 defaultRow).selTotal ∧
    ((applyRules defaultConfig [exRowEmptyLC]).getD 0 defaultRow).ps = 0 :=
  claim_C3_empty_least_cost defaultConfig [exRowEmptyLC] 0 (by decide)
    (Or.inl rfl)

/-! ## Claim C2: idempotence of the full rule sequence -/

theorem mask1_rule1 (c : ℚ) (r : Row) : mask1 (rule1 c r) = mask1 r := by
  unfold rule1; split <;> rfl

theorem mask2_eq_false_of_mask1 {r : Row} (h : mask1 r = true) :
    mask2 r = false := by
  simp only [mask1, Bool.and_eq_true, bne_iff_ne, ne_eq, beq_iff_eq] at h
  obtain ⟨⟨⟨⟨-, -⟩, hlc⟩, -⟩, hlcn⟩ := h
  simp [mask2, hlc, hlcn]

/-- Second application of the per-row rule pipeline is the identity when the
configured same-carrier savings value is at most 0. -/
theorem applyRow_idem (cfg : Config) (hc : cfg.sameCarrierSavings ≤ 0)
    (r : Row) : applyRow cfg (applyRow cfg r) = applyRow cfg r := by
  rcases applyRow_spec cfg r with hf | ⟨he, h2, h3, h4, h5⟩
  · set r' := applyRow cfg r with hr'
    by_cases h1 : mask1 r' = true
    · have e1 : rule1 cfg.sameCarrierSavings r' =
          { r' with ps := cfg.sameCarrierSavings } := by simp [rule1, h1]
      have h2' : mask2 { r' with ps := cfg.sameCarrierSavings } = false :=
        mask2_eq_false_of_mask1 h1
      have e2 : rule2 { r' with ps := cfg.sameCarrierSavings } =
          { r' with ps := cfg.sameCarrierSavings } := by simp [rule2, h2']
      rcases lt_or_eq_of_le hc with hlt | heq
      · have e3 : rule3 { r' with ps := cfg.sameCarrierSavings } =
            zeroCopy { r' with ps := cfg.sameCarrierSavings } := by
          simp only [rule3]
          rw [if_pos]
          exact hlt
        have ez : zeroCopy { r' with ps := cfg.sameCarrierSavings } = r' := by
          rw [zeroCopy_ps_update, zeroCopy_of_fixed hf]
        show rule5 (rule4 cfg.tlCarriers (rule3 (rule2
          (rule1 cfg.sameCarrierSavings r')))) = r'
        rw [e1, e2, e3, ez, rule4_of_fixed hf, rule5_of_fixed hf]
      · have hps : { r' with ps := cfg.sameCarrierSavings } = r' := by
          rw [heq, ← hf.2]
        show rule5 (rule4 cfg.tlCarriers (rule3 (rule2
          (rule1 cfg.sameCarrierSavings r')))) = r'
        rw [e1, hps, rule2_of_fixed hf, rule3_of_fixed hf,
          rule4_of_fixed hf, rule5_of_fixed hf]
    · have e1 : rule1 cfg.sameCarrierSavings r' = r' := by simp [rule1, h1]
      show rule5 (rule4 cfg.tlCarriers (rule3 (rule2
        (rule1 cfg.sameCarrierSavings r')))) = r'
      rw [e1, rule2_of_fixed hf, rule3_of_fixed hf, rule4_of_fixed hf,
        rule5_of_fixed hf]
  · have e2 : rule2 (applyRow cfg r) = applyRow cfg r := by simp [rule2, h2]
    have e3 : rule3 (applyRow cfg r) = applyRow cfg r := by simp [rule3, h3]
    have e4 : rule4 cfg.tlCarriers (applyRow cfg r) = applyRow cfg r := by
      simp [rule4, h4]
    have e5 : rule5 (applyRow cfg r) = applyRow cfg r := by simp [rule5, h5]
    by_cases h1 : mask1 (applyRow cfg r) = true
    · have hm1 : mask1 r = true := by
        rw [he, mask1_rule1] at h1; exact h1
      have hps : (applyRow cfg r).ps = cfg.sameCarrierSavings := by
        rw [he]; simp [rule1, hm1]
      rw [hps] at h3
      have hzero : cfg.sameCarrierSavings = 0 :=
        le_antisymm hc (le_of_not_lt h3)
      have hps0 : (applyRow cfg r).ps = 0 := by rw [hps, hzero]
      have e1 : rule1 cfg.sameCarrierSavings (applyRow cfg r) =
          applyRow cfg r := by
        unfold rule1
        rw [if_pos h1, hzero, ← hps0]
      show rule5 (rule4 cfg.tlCarriers (rule3 (rule2
        (rule1 cfg.sameCarrierSavings (applyRow cfg r))))) = applyRow cfg r
      rw [e1, e2, e3, e4, e5]
    · have e1 : rule1 cfg.sameCarrierSavings (applyRow cfg r) =
          applyRow cfg r := by simp [rule1, h1]
      show rule5 (rule4 cfg.tlCarriers (rule3 (rule2
        (rule1 cfg.sameCarrierSavings (applyRow cfg r))))) = applyRow cfg r
      rw [e1, e2, e3, e4, e5]

/-- C2 counterexample: with `same_carrier_savings = 5`, an empty-least-cost
row gets savings 0 on the first pass (rule 2) but savings 5 on the second
pass (rule 1 now matches the copied carriers), so the sequence is not
idempotent for every configuration. -/
theorem claim_C2_cex :
    applyRules cexConfigPos (applyRules cexConfigPos [exRowEmptyLC]) ≠
      applyRules cexConfigPos [exRowEmptyLC] := by decide

/-- C2 (amended): the full rule sequence is idempotent for every row set
provided the configured `same_carrier_savings` value is at most 0, which
includes the shipped default 0. -/
theorem claim_C2_idempotent_amended (cfg : Config)
    (hc : cfg.sameCarrierSavings ≤ 0) (rows : List Row) :
    applyRules cfg (applyRules cfg rows) = applyRules cfg rows := by
  rw [applyRules_eq_map, applyRules_eq_map, List.map_map]
  exact List.map_congr_left (fun a _ => applyRow_idem cfg hc a)

/-- Witness for the amended C2 at the default configuration. -/
theorem claim_C2_idempotent_amended_witness :
    applyRules defaultConfig (applyRules defaultConfig [exRowSame, exRowNeg]) =
      applyRules defaultConfig [exRowSame, exRowNeg] :=
  claim_C2_idempotent_amended defaultConfig (by decide) [exRowSame, exRowNeg]

/-! ## Claim C4: the same-carrier invariant -/

theorem strMap_data (f : Char → Char) (s : String) :
    (strMap f s).data = s.data.map f := rfl

theorem trimStr_len_le (s : String) :
    (trimStr s).data.length ≤ s.data.length := by
  show (((s.data.dropWhile isSpaceChar).reverse.dropWhile
    isSpaceChar).reverse).length ≤ s.data.length
  rw [List.length_reverse]
  calc ((s.data.dropWhile isSpaceChar).reverse.dropWhile isSpaceChar).length
      ≤ (s.data.dropWhile isSpaceChar).reverse.length :=
        (List.dropWhile_sublist _).length_le
    _ = (s.data.dropWhile isSpaceChar).length := List.length_reverse _
    _ ≤ s.data.length := (List.dropWhile_sublist _).length_le

theorem takeWhile_len_lt_of_mem {p : Char → Bool} {l : List Char} {c : Char}
    (hc : c ∈ l) (hp : p c = false) : (l.takeWhile p).length < l.length := by
  induction l with
  | nil => cases hc
  | cons a t ih =>
    by_cases ha : p a = true
    · have hct : c ∈ t := by
        rcases List.mem_cons.mp hc with rfl | h
        · rw [ha] at hp; cases hp
        · exact h
      rw [List.takeWhile_cons, if_pos ha]
      simpa using ih hct
    · rw [List.takeWhile_cons, if_neg ha]
      simp

theorem afterLastSlash_len_lt {s : String}
    (h : containsChar s '/' = true) :
    (afterLastSlash s).data.length < s.data.length := by
  have hm : '/' ∈ s.data.reverse := by
    rw [List.mem_reverse]
    simpa [containsChar, List.contains_iff_exists_mem_beq, beq_iff_eq,
      eq_comm] using h
  show ((s.data.reverse.takeWhile (fun c => !(c == '/'))).reverse).length <
    s.data.length
  rw [List.length_reverse]
  calc (s.data.reverse.takeWhile (fun c => !(c == '/'))).length
      < s.data.reverse.length :=
        takeWhile_len_lt_of_mem hm (by simp)
    _ = s.data.length := List.length_reverse _

/-- Rule 5 can never match a row whose two carrier strings are equal: the
part after the last slash is strictly shorter than the whole carrier
string, and all the normalisations preserve length. -/
theorem mask5_eq_false_of_carrier_eq {r : Row}
    (h : r.selCarrier = r.lcCarrier) : mask5 r = false := by
  by_cases hsl : containsChar (trimStr r.selCarrier) '/' = true
  · have hlc : trimStr r.lcCarrier = trimStr r.selCarrier := by rw [h]
    have hlt : (trimStr (afterLastSlash (trimStr r.selCarrier))).data.length <
        (trimStr r.selCarrier).data.length :=
      lt_of_le_of_lt (trimStr_len_le _) (afterLastSlash_len_lt hsl)
    have hneq : ∀ f : Char → Char,
        strMap f (trimStr (afterLastSlash (trimStr r.selCarrier))) ≠
          strMap f (trimStr r.selCarrier) := by
      intro f hEq
      have := congrArg (fun t => t.data.length) hEq
      simp only [strMap_data, List.length_map] at this
      omega
    have e1 : (upperStr (trimStr (afterLastSlash (trimStr r.selCarrier))) ==
        upperStr (trimStr r.selCarrier)) = false :=
      beq_eq_false_iff_ne.mpr (hneq upChar)
    have hneq2 : ∀ f g : Char → Char,
        strMap f (strMap g (trimStr (afterLastSlash (trimStr r.selCarrier)))) ≠
          strMap f (strMap g (trimStr r.selCarrier)) := by
      intro f g hEq
      have := congrArg (fun t => t.data.length) hEq
      simp only [strMap_data, List.length_map] at this
      omega
    have e2 : (ampToPct (upperStr (trimStr (afterLastSlash
        (trimStr r.selCarrier)))) ==
        ampToPct (upperStr (trimStr r.selCarrier))) = false :=
      beq_eq_false_iff_ne.mpr (hneq2 _ upChar)
    have e3 : (pctToAmp (upperStr (trimStr (afterLastSlash
        (trimStr r.selCarrier)))) ==
        pctToAmp (upperStr (trimStr r.selCarrier))) = false :=
      beq_eq_false_iff_ne.mpr (hneq2 _ upChar)
    simp only [mask5, hlc]
    rw [e1, e2, e3]
    simp
  · rw [Bool.not_eq_true] at hsl
    simp [mask5, hsl]

/-- C4 counterexample: a row whose selected and least-cost carrier are both
the (non-empty) TL carrier LANDSTAR RANGER INC ends the rule sequence with
potential savings 0, not the configured value 7. -/
theorem claim_C4_cex :
    mask1 cexRowTL = true ∧
    ((applyRules cexConfigSeven [cexRowTL]).getD 0 defaultRow).ps ≠
      cexConfigSeven.sameCarrierSavings := by decide

/-- C4 (amended): for every row matched by the same-carrier condition (equal
carriers, both non-empty and not the literal `"nan"`), the rule sequence
leaves potential savings equal to the configured `same_carrier_savings`
value, provided that value is at least 0 and the shared carrier is not in
the configured TL set. -/
theorem claim_C4_same_carrier_amended (cfg : Config) (rows : List Row)
    (i : Nat) (hi : i < rows.length)
    (h1 : mask1 (rows.getD i defaultRow) = true)
    (hc : 0 ≤ cfg.sameCarrierSavings)
    (htl : upperMem cfg.tlCarriers (rows.getD i defaultRow).selCarrier = false) :
    ((applyRules cfg rows).getD i defaultRow).ps = cfg.sameCarrierSavings := by
  rw [applyRules_eq_map, getD_map (applyRow cfg) defaultRow defaultRow rows i hi]
  set r := rows.getD i defaultRow with hr
  have hsel : r.selCarrier = r.lcCarrier := by
    simp only [mask1, Bool.and_eq_true, beq_iff_eq] at h1
    exact h1.1.1.1.1
  have e1 : rule1 cfg.sameCarrierSavings r =
      { r with ps := cfg.sameCarrierSavings } := by simp [rule1, h1]
  have e2 : rule2 { r with ps := cfg.sameCarrierSavings } =
      { r with ps := cfg.sameCarrierSavings } := by
    have h2' : mask2 { r with ps := cfg.sameCarrierSavings } = false :=
      mask2_eq_false_of_mask1 h1
    simp [rule2, h2']
  have e3 : rule3 { r with ps := cfg.sameCarrierSavings } =
      { r with ps := cfg.sameCarrierSavings } := by
    simp only [rule3]
    rw [if_neg]
    exact not_lt.mpr hc
  have e4 : rule4 cfg.tlCarriers { r with ps := cfg.sameCarrierSavings } =
      { r with ps := cfg.sameCarrierSavings } := by
    have hm : mask4 cfg.tlCarriers { r with ps := cfg.sameCarrierSavings } =
        false := by
      show (upperMem cfg.tlCarriers r.selCarrier ||
        upperMem cfg.tlCarriers r.lcCarrier) = false
      rw [← hsel, htl, Bool.or_self]
    simp [rule4, hm]
  have e5 : rule5 { r with ps := cfg.sameCarrierSavings } =
      { r with ps := cfg.sameCarrierSavings } := by
    have hm : mask5 { r with ps := cfg.sameCarrierSavings } = false :=
      mask5_eq_false_of_carrier_eq (r := { r with ps := cfg.sameCarrierSavings })
        hsel
    simp [rule5, hm]
  show (rule5 (rule4 cfg.tlCarriers (rule3 (rule2
    (rule1 cfg.sameCarrierSavings r))))).ps = cfg.sameCarrierSavings
  rw [e1, e2, e3, e4, e5]

/-- Witness for the amended C4: a non-TL same-carrier row keeps the
configured positive value 7. -/
theorem claim_C4_same_carrier_amended_witness :
    ((applyRules cexConfigSeven [exRowSame]).getD 0 defaultRow).ps =
      cexConfigSeven.sameCarrierSavings :=
  claim_C4_same_carrier_amended cexConfigSeven [exRowSame] 0 (by decide)
    (by decide) (by decide) (by decide)

/-! ## Claim C5: the potential-savings derivation -/

/-- C5: if a Potential Savings column exists and at least one of its cells
parses to a non-null number, the frame is returned unchanged (every row kept
verbatim); otherwise, with both total-cost columns present, each row gets
selected minus least-cost total, forced to 0 where the least-cost total
is 0. -/
theorem claim_C5_ps_derivation (d : PreDF) :
    (d.hasPSCol = true →
      d.rows.any (fun r => (toNum r.psCell).isSome) = true →
      calculate_potential_savings d = d) ∧
    (¬ (d.hasPSCol = true ∧
        d.rows.any (fun r => (toNum r.psCell).isSome) = true) →
      d.hasSelCostCol = true → d.hasLcCostCol = true →
      ∀ i : Nat, i < d.rows.length →
        ((calculate_potential_savings d).rows.getD i defaultPreRow).psCell =
          Cell.num (if toNumF ((d.rows.getD i defaultPreRow).lcTotalCell) = 0
            then 0
            else toNumF ((d.rows.getD i defaultPreRow).selTotalCell) -
                 toNumF ((d.rows.getD i defaultPreRow).lcTotalCell))) := by
  constructor
  · intro h1 h2
    simp [calculate_potential_savings, h1, h2]
  · intro hn hs hl i hi
    have hcond : (d.hasPSCol &&
        d.rows.any (fun r => (toNum r.psCell).isSome)) = false := by
      cases ha : d.hasPSCol <;>
        cases hb : d.rows.any (fun r => (toNum r.psCell).isSome) <;>
        simp_all
    have hrows : (calculate_potential_savings d).rows =
        d.rows.map (fun r =>
          { r with psCell := .num (if toNumF r.lcTotalCell = 0 then 0
              else toNumF r.selTotalCell - toNumF r.lcTotalCell) }) := by
      simp [calculate_potential_savings, hcond, hs, hl]
    rw [hrows, getD_map _ defaultPreRow defaultPreRow d.rows i hi]

/-- Witness for C5: the verbatim branch on a frame with one parseable
savings cell, and the computed branch on spec scenario 6
(1000 − 800 = 200). -/
theorem claim_C5_ps_derivation_witness :
    calculate_potential_savings exPreKeep = exPreKeep ∧
    ((calculate_potential_savings exPreCompute).rows.getD 0
        defaultPreRow).psCell = Cell.num 200 := by
  constructor
  · exact (claim_C5_ps_derivation exPreKeep).1 rfl rfl
  · have h := (claim_C5_ps_derivation exPreCompute).2 (by decide) rfl rfl 0
      (by decide)
    rw [h]
    norm_num [exPreCompute, toNumF, toNum, defaultPreRow]

/-! ## Claim C6: header detection -/

theorem detectAux_eq_find (grid : List (List Cell)) :
    ∀ (n i : Nat),
      detectAux grid n i =
        match (List.range' i n).find?
            (fun j => rowLooksLikeHeader (grid.getD j [])) with
        | some j => (j, j + 2)
        | none => (DEFAULT_HEADER_ROW, DEFAULT_DATA_START_ROW)
  | 0, _ => rfl
  | n + 1, i => by
    rw [List.range'_succ, List.find?_cons]
    cases h : rowLooksLikeHeader (grid.getD i [])
    · have hud : detectAux grid (n + 1) i = detectAux grid n (i + 1) := by
        show (if rowLooksLikeHeader (grid.getD i []) then (i, i + 2)
          else detectAux grid n (i + 1)) = _
        rw [h]
        simp
      rw [hud, detectAux_eq_find grid n (i + 1)]
    · have hud : detectAux grid (n + 1) i = (i, i + 2) := by
        show (if rowLooksLikeHeader (grid.getD i []) then (i, i + 2)
          else detectAux grid n (i + 1)) = _
        rw [h]
        simp
      rw [hud]

/-- C6: header detection scans the row indices in `range(5, min(15, n))`;
it returns the first index whose row contains at least two marker tokens
(case-insensitively, over the non-null cells joined as text) together with
that index plus 2, and falls back to the configured defaults (7, 10) when no
row in the range matches — a total function, so no error is ever raised. -/
theorem claim_C6_header_detection (grid : List (List Cell)) :
    detect_data_structure grid =
      match (List.range' 5 (min 15 grid.length - 5)).find?
          (fun j => rowLooksLikeHeader (grid.getD j [])) with
      | some j => (j, j + 2)
      | none => (7, 10) :=
  detectAux_eq_find grid (min 15 grid.length - 5) 5

/-! ## Claim C7: failure policy on a missing load-id column -/

/-- C7 counterexample: a dataframe whose load-id column is entirely absent
is cleaned without any error — no ValidationError reaches the caller,
contradicting the claim. -/
theorem claim_C7_cex :
    hasCol dfNoLoad "Load No." = false ∧
    isOkE (clean_data dfNoLoad) = true := by decide

/-- C7 (amended): the cleaning step never raises; absence of the load-id
column, exactly like absence of any other column, only causes the affected
computation (the load-id row filter) to be skipped, the remaining cleaning
running unchanged. -/
theorem claim_C7_no_validation_error (d : DF) :
    isOkE (clean_data d) = true ∧
    (hasCol d "Load No." = false →
      clean_data d =
        Except.ok (threshFilter (cleanStrCols (cleanNumericCols d)))) := by
  refine ⟨rfl, fun h => ?_⟩
  simp [clean_data, loadFilter, h]

/-- Witness for the amended C7 at a concrete frame without a load-id
column. -/
theorem claim_C7_no_validation_error_witness :
    clean_data dfNoLoadW =
      Except.ok (threshFilter (cleanStrCols (cleanNumericCols dfNoLoadW))) :=
  (claim_C7_no_validation_error dfNoLoadW).2 (by decide)

/-! ## Claim C8: duplicate header removal -/

/-- C8 counterexample: the row `["Carrier", "B123"]` contains a marker token
and a cell matching the claimed pattern letter-followed-by-digits, yet the
source drops it (its identifier test demands the letter A), contradicting
the claim that such a row is kept. -/
theorem claim_C8_cex :
    rowContainsMarker cexDupRow = true ∧
    (cexDupRow.filterMap cellText).any specIdentCell = true ∧
    remove_duplicate_headers [cexDupRow] = [] := by decide

/-- C8 (amended): a data row is dropped as a re-embedded duplicate header if
and only if it contains a marker token and contains no cell of the shape
the capital letter A followed by digits; a marker row with such an A-cell is
kept. -/
theorem claim_C8_dup_header_amended (rows : List (List Cell))
    (row : List Cell) :
    row ∈ remove_duplicate_headers rows ↔
      row ∈ rows ∧
        ¬ (rowContainsMarker row = true ∧ rowHasIdentCell row = false) := by
  rw [remove_duplicate_headers, List.mem_filter]
  constructor
  · rintro ⟨hm, hp⟩
    refine ⟨hm, fun hand => ?_⟩
    rw [hand.1, hand.2] at hp
    simp at hp
  · rintro ⟨hm, hp⟩
    refine ⟨hm, ?_⟩
    cases hA : rowContainsMarker row <;> cases hB : rowHasIdentCell row <;>
      simp_all

/-! ## Claim C10: the total_rows_affected statistic -/

/-- C10: `total_rows_affected` is the arithmetic sum of the five per-rule
match counts, and on a concrete one-row input matched by two rules it
equals 2, exceeding the row count 1. -/
theorem claim_C10_total_rows_affected :
    (∀ (cfg : Config) (rows : List Row),
      ((apply_business_logic_enhanced cfg rows).2).totalRowsAffected =
        ((apply_business_logic_enhanced cfg rows).2).sameCarrierRuleApplied +
        ((apply_business_logic_enhanced cfg rows).2).emptyDataRuleApplied +
        ((apply_business_logic_enhanced cfg
            rows).2).negativeSavingsRuleApplied +
        ((apply_business_logic_enhanced cfg rows).2).tlCarrierRuleApplied +
        ((apply_business_logic_enhanced cfg rows).2).ddiCarrierRuleApplied) ∧
    ((apply_business_logic_enhanced defaultConfig
        [exRowDouble]).2).totalRowsAffected > [exRowDouble].length := by
  exact ⟨fun _ _ => rfl, by decide⟩

end TMS
